import Mathlib

/-!
Verification of the calendarApp front-end (src/src/App.tsx).

The single source file defines a React component with services `login` and
`fetchMeetings`, a presentational `MeetingCard`, and the `App` shell holding
five pieces of state: the mode flag `useReal`, the optional `user`, the
meeting `data`, the `loading` flag and the `error` message. We embed that
state as a record, the two services as functions of an explicit backend
environment, and `handleLogin` as a state transformer that also emits a
trace of the observable events (state setters, service calls, navigation).
-/

namespace CalendarApp

/-- `interface User` from App.tsx (name, email, avatar). -/
structure User where
  name : String
  email : String
  avatar : String
deriving DecidableEq, Repr

/-- An attendee entry of a meeting: `{ email: string }`. -/
structure Attendee where
  email : String
deriving DecidableEq, Repr

/-- `interface Meeting` from App.tsx. -/
structure Meeting where
  id : String
  title : String
  startTime : String
  endTime : String
  attendees : List Attendee
  description : Option String
  link : Option String
deriving DecidableEq, Repr

/-- The meeting collection `{ upcoming: Meeting[]; past: Meeting[] }`. -/
structure MeetingData where
  upcoming : List Meeting
  past : List Meeting
deriving DecidableEq, Repr

/-- `const USE_REAL_BACKEND = true` from App.tsx. -/
def USE_REAL_BACKEND : Bool := true

/-- The synthetic user resolved by the mock login branch of `login`. -/
def demoUser : User :=
  { name := "Demo User"
  , email := "demo@example.com"
  , avatar := "https://ui-avatars.com/api/?name=Demo+User&background=0D8ABC&color=fff" }

/-- The generic connectivity message set by the catch clause of `handleLogin`. -/
def connectionFailedMsg : String := "Connection failed. Is the backend running on port 3000?"

/-- The JSON body of `POST /auth/login`: it may carry a `user`, an `authUrl`,
both, or neither. -/
structure LoginResponse where
  user : Option User
  authUrl : Option String
deriving DecidableEq, Repr

/-- Outcome of the `login` service: resolving with a user, resolving with
`null` after assigning `window.location.href` (a redirect), or throwing. -/
inductive LoginResult where
  | user (u : User)
  | redirect (url : String)
  | failure
deriving DecidableEq, Repr

/-- The `login` service of App.tsx. The environment `env` is the backend
response to `POST /auth/login`: `none` stands for a transport or JSON
failure, `some r` for a parsed body. The mock branch resolves with the
demo user; the real branch returns `data.user` when present, otherwise
redirects to `data.authUrl` when present, otherwise throws. -/
def login (useReal : Bool) (env : Option LoginResponse) : LoginResult :=
  if !useReal then
    LoginResult.user demoUser
  else
    match env with
    | none => LoginResult.failure
    | some data =>
      match data.user with
      | some u => LoginResult.user u
      | none =>
        match data.authUrl with
        | some url => LoginResult.redirect url
        | none => LoginResult.failure

/-- The `fetchMeetings` service of App.tsx. The environment is the body of
`GET /api/meetings` on a 2xx status, `none` standing for a non-ok status or
transport failure (both throw in the source). The mock branch returns the
empty collection. -/
def fetchMeetings (useReal : Bool) (env : Option MeetingData) : Option MeetingData :=
  if !useReal then some { upcoming := [], past := [] }
  else env

/-- The component state held by `App` via useState. -/
structure AppState where
  useReal : Bool
  user : Option User
  data : MeetingData
  loading : Bool
  error : Option String
deriving DecidableEq, Repr

/-- The initial state of `App`: mode from `USE_REAL_BACKEND`, no user, empty
collection, not loading, no error. -/
def initialState : AppState :=
  { useReal := USE_REAL_BACKEND
  , user := none
  , data := { upcoming := [], past := [] }
  , loading := false
  , error := none }

/-- Observable events of a `handleLogin` run: state setters, the two service
invocations, the resolution of `login`, and navigation of the browsing
context (`window.location.href` assignment inside `login`). -/
inductive Event where
  | setLoading (b : Bool)
  | setError (e : Option String)
  | loginCall
  | loginResolved (r : LoginResult)
  | setUser (u : Option User)
  | fetchCall
  | setData (d : MeetingData)
  | navigate (url : String)
deriving DecidableEq, Repr

/-- `handleLogin` from App.tsx as a state transformer emitting a trace.
It sets loading and clears the error, awaits `login`; on a user it sets the
user, awaits `fetchMeetings` and either stores the collection or catches the
throw into the generic message; on a redirect (login returned null after
navigating) it does nothing further; on a throw it catches into the generic
message; the finally clause always clears loading last. -/
def handleLogin (s : AppState) (loginEnv : Option LoginResponse)
    (fetchEnv : Option MeetingData) : AppState × List Event :=
  let s1 : AppState := { s with loading := true, error := none }
  let ev0 : List Event := [Event.setLoading true, Event.setError none, Event.loginCall]
  match login s.useReal loginEnv with
  | LoginResult.user u =>
    match fetchMeetings s.useReal fetchEnv with
    | some d =>
      ({ s1 with user := some u, data := d, loading := false },
       ev0 ++ [Event.loginResolved (LoginResult.user u), Event.setUser (some u),
               Event.fetchCall, Event.setData d, Event.setLoading false])
    | none =>
      ({ s1 with user := some u, error := some connectionFailedMsg, loading := false },
       ev0 ++ [Event.loginResolved (LoginResult.user u), Event.setUser (some u),
               Event.fetchCall, Event.setError (some connectionFailedMsg),
               Event.setLoading false])
  | LoginResult.redirect url =>
    ({ s1 with loading := false },
     ev0 ++ [Event.navigate url, Event.loginResolved (LoginResult.redirect url),
             Event.setLoading false])
  | LoginResult.failure =>
    ({ s1 with error := some connectionFailedMsg, loading := false },
     ev0 ++ [Event.loginResolved LoginResult.failure,
             Event.setError (some connectionFailedMsg), Event.setLoading false])

/-- The logout handler of the dashboard header: `onClick={() => setUser(null)}`.
It sets only the user to null. -/
def logout (s : AppState) : AppState := { s with user := none }

/-- The mode toggle of the login screen: `onClick={() => setUseReal(!useReal)}`. -/
def toggleMode (s : AppState) : AppState := { s with useReal := !s.useReal }

/-- The view produced by the `App` render: the login screen (showing the
loading spinner and the error box) when no user is set, else the dashboard
with the two meeting sections. -/
inductive View where
  | loginScreen (loading : Bool) (error : Option String)
  | dashboard (upcoming : List Meeting) (past : List Meeting)
deriving DecidableEq, Repr

/-- The render of `App`: `if (!user)` return the login screen, else the
dashboard over `data.upcoming` and `data.past`. -/
def render (s : AppState) : View :=
  match s.user with
  | none => View.loginScreen s.loading s.error
  | some _ => View.dashboard s.data.upcoming s.data.past

/-- The page URL as far as the startup effect reads it: the value of the
`status` query parameter, if present. -/
structure URLState where
  statusParam : Option String
deriving DecidableEq, Repr

/-- Whether the successful-redirect marker `?status=success` is present:
`params.get("status") === "success"`. -/
def markerPresent (u : URLState) : Bool := u.statusParam == some "success"

/-- The mount-time effect of `App` (useEffect with empty deps): if the marker
is present and the mode is real, invoke `handleLogin` and replace the URL
with `/` (removing all query parameters); otherwise do nothing. Returns the
new state, the new URL and the emitted trace. -/
def startupEffect (url : URLState) (s : AppState) (loginEnv : Option LoginResponse)
    (fetchEnv : Option MeetingData) : AppState × URLState × List Event :=
  if markerPresent url && s.useReal then
    let r := handleLogin s loginEnv fetchEnv
    (r.1, { statusParam := none }, r.2)
  else
    (s, url, [])

/-- Modelled from the spec: the Session Controller states. The source keeps
no explicit state tag; the spec design notes derive the four states from the
flags, and we mirror that derivation here to state the claims that speak of
controller states. -/
inductive CtrlState where
  | loggedOut
  | authenticating
  | loggedIn
  | error
deriving DecidableEq, Repr

/-- Modelled from the spec: the flag-to-state mapping of the design notes.
Loading means `Authenticating`; otherwise a set user means `LoggedIn`
(mirroring the render, which checks the user first); otherwise a stored
message means `Error`; otherwise `LoggedOut`. -/
def controllerState (s : AppState) : CtrlState :=
  if s.loading then CtrlState.authenticating
  else if s.user.isSome then CtrlState.loggedIn
  else if s.error.isSome then CtrlState.error
  else CtrlState.loggedOut

/-- The ambient locale and timezone of `MeetingCard`, abstracted as the two
formatting functions the card applies to `meeting.startTime`
(`toLocaleDateString` and `toLocaleTimeString` with 2-digit hour/minute). -/
structure LocaleContext where
  formatDate : String -> String
  formatTime : String -> String

/-- The content of the rendered meeting card: the localized date and time
texts, the title, the attendee count, and the video indicator. -/
structure CardView where
  dateText : String
  timeText : String
  title : String
  attendeeCount : Nat
  hasVideo : Bool
deriving DecidableEq, Repr

/-- `MeetingCard` from App.tsx: formats the start time as localized date and
time, shows the title, counts the attendees, and shows the video indicator
exactly when `meeting.link` is present. -/
def MeetingCard (ctx : LocaleContext) (meeting : Meeting) : CardView :=
  { dateText := ctx.formatDate meeting.startTime
  , timeText := ctx.formatTime meeting.startTime
  , title := meeting.title
  , attendeeCount := meeting.attendees.length
  , hasVideo := meeting.link.isSome }

/-- A sample user for concrete instantiations. -/
def testUser : User := { name := "Test", email := "t@example.com", avatar := "a" }

/-- A sample meeting with one attendee and a video link. -/
def m1 : Meeting :=
  { id := "1"
  , title := "Standup"
  , startTime := "2024-01-01T10:00:00Z"
  , endTime := "2024-01-01T10:30:00Z"
  , attendees := [{ email := "a@b.c" }]
  , description := none
  , link := some "https://meet.example.com/x" }

/-- A logged-in state holding a nonempty meeting collection. -/
def loggedInState : AppState :=
  { useReal := true
  , user := some testUser
  , data := { upcoming := [m1], past := [] }
  , loading := false
  , error := none }

/-- C8: in stub mode, login always resolves (never rejects, never redirects)
and always yields the user with the fixed synthetic email demo@example.com,
whatever the backend environment is. -/
theorem stub_login_always_demo (env : Option LoginResponse) :
    login false env = LoginResult.user demoUser ∧ demoUser.email = "demo@example.com" := by
  constructor
  · rfl
  · rfl

/-- C10: toggling the mode flag while logged out flips only the mode flag;
the user, the meeting collection, the error message and the loading flag are
left unchanged. -/
theorem toggle_mode_frame (s : AppState) (_h : s.user = none) :
    (toggleMode s).useReal = !s.useReal ∧ (toggleMode s).user = s.user ∧
    (toggleMode s).data = s.data ∧ (toggleMode s).error = s.error ∧
    (toggleMode s).loading = s.loading := by
  exact ⟨rfl, rfl, rfl, rfl, rfl⟩

/-- Witness for C10 at the initial (logged out) state. -/
theorem toggle_mode_frame_witness :
    (toggleMode initialState).useReal = !initialState.useReal ∧
    (toggleMode initialState).user = initialState.user ∧
    (toggleMode initialState).data = initialState.data ∧
    (toggleMode initialState).error = initialState.error ∧
    (toggleMode initialState).loading = initialState.loading :=
  toggle_mode_frame initialState rfl

/-- C9: the meeting card render is a pure function of the meeting and the
ambient locale/timezone context: two runs on identical inputs produce
identical output, and the output is exactly the localized date and time of
the start time, the title, the attendee count and the video indicator. -/
theorem meeting_card_pure (ctx : LocaleContext) (m : Meeting) :
    MeetingCard ctx m = MeetingCard ctx m ∧
    (MeetingCard ctx m).dateText = ctx.formatDate m.startTime ∧
    (MeetingCard ctx m).timeText = ctx.formatTime m.startTime ∧
    (MeetingCard ctx m).title = m.title ∧
    (MeetingCard ctx m).attendeeCount = m.attendees.length ∧
    (MeetingCard ctx m).hasVideo = m.link.isSome :=
  ⟨rfl, rfl, rfl, rfl, rfl, rfl⟩

/-- C1 counterexample: logging out of a state holding a nonempty meeting
collection leaves the collection in place — the upcoming sequence of the
session state is not empty after logout, refuting the claim that logout
clears the MeetingCollection. -/
theorem logout_keeps_data_counterexample :
    (logout loggedInState).user = none ∧
    (logout loggedInState).data.upcoming ≠ [] ∧
    (logout loggedInState).data = loggedInState.data := by
  refine ⟨rfl, ?_, rfl⟩
  intro h
  simp [logout, loggedInState] at h

/-- C1 amended: logout clears only the user, so a subsequent render shows
the login screen (which displays no meeting data), but the meeting
collection itself is left unchanged in the session state. -/
theorem logout_clears_user_only (s : AppState) :
    (logout s).user = none ∧ (logout s).data = s.data ∧
    (logout s).useReal = s.useReal ∧ (logout s).loading = s.loading ∧
    (logout s).error = s.error ∧
    render (logout s) = View.loginScreen s.loading s.error :=
  ⟨rfl, rfl, rfl, rfl, rfl, rfl⟩

/-- Helper shared by several proofs: every run of `handleLogin` invokes the
login service exactly once, whatever the environments are. -/
theorem handleLogin_count_loginCall (s : AppState) (lE : Option LoginResponse)
    (fE : Option MeetingData) :
    ((handleLogin s lE fE).2).count Event.loginCall = 1 := by
  unfold handleLogin
  rcases hl : login s.useReal lE with u | url | _
  · rcases hf : fetchMeetings s.useReal fE with _ | d <;> simp [hf, List.count_cons]
  · simp [List.count_cons]
  · simp [List.count_cons]

/-- C5: when a real-mode login yields a redirect target, the navigation
target is set to that URL, no user is set, no fetchMeetings call occurs, no
error is shown, and (starting from the login screen) no dashboard is
rendered. -/
theorem redirect_no_user_no_fetch (s : AppState) (resp : LoginResponse)
    (fE : Option MeetingData) (url : String)
    (h1 : s.useReal = true) (h2 : resp.user = none) (h3 : resp.authUrl = some url)
    (h4 : s.user = none) :
    Event.navigate url ∈ (handleLogin s (some resp) fE).2 ∧
    (handleLogin s (some resp) fE).1.user = none ∧
    Event.fetchCall ∉ (handleLogin s (some resp) fE).2 ∧
    (handleLogin s (some resp) fE).1.error = none ∧
    render (handleLogin s (some resp) fE).1 = View.loginScreen false none := by
  have hl : login s.useReal (some resp) = LoginResult.redirect url := by
    simp [login, h1, h2, h3]
  simp [handleLogin, hl, render, h4]

/-- Witness for C5 at a concrete redirect response from the initial state. -/
theorem redirect_no_user_no_fetch_witness :
    Event.navigate "https://accounts.google.com/o/oauth2" ∈
      (handleLogin initialState
        (some { user := none, authUrl := some "https://accounts.google.com/o/oauth2" })
        none).2 ∧
    (handleLogin initialState
      (some { user := none, authUrl := some "https://accounts.google.com/o/oauth2" })
      none).1.user = none ∧
    Event.fetchCall ∉ (handleLogin initialState
      (some { user := none, authUrl := some "https://accounts.google.com/o/oauth2" })
      none).2 ∧
    (handleLogin initialState
      (some { user := none, authUrl := some "https://accounts.google.com/o/oauth2" })
      none).1.error = none ∧
    render (handleLogin initialState
      (some { user := none, authUrl := some "https://accounts.google.com/o/oauth2" })
      none).1 = View.loginScreen false none :=
  redirect_no_user_no_fetch initialState
    { user := none, authUrl := some "https://accounts.google.com/o/oauth2" }
    none "https://accounts.google.com/o/oauth2" rfl rfl rfl rfl

/-- C2 counterexample: from the initial real-mode state, a login that yields
a user followed by a failing meetings fetch leaves the user set, so the
render is the dashboard (and the derived controller state is LoggedIn, not
Error): control does not return to the login screen, refuting the claim. -/
theorem fetch_failure_dashboard_counterexample :
    (handleLogin initialState (some { user := some testUser, authUrl := none })
      none).1.error = some connectionFailedMsg ∧
    (handleLogin initialState (some { user := some testUser, authUrl := none })
      none).1.data.upcoming = [] ∧
    (handleLogin initialState (some { user := some testUser, authUrl := none })
      none).1.data.past = [] ∧
    (handleLogin initialState (some { user := some testUser, authUrl := none })
      none).1.user = some testUser ∧
    render (handleLogin initialState (some { user := some testUser, authUrl := none })
      none).1 = View.dashboard [] [] ∧
    controllerState (handleLogin initialState
      (some { user := some testUser, authUrl := none }) none).1 = CtrlState.loggedIn :=
  ⟨rfl, rfl, rfl, rfl, rfl, rfl⟩

/-- C2 amended: if fetchMeetings fails after a real-mode login yielded a
user, the error becomes the generic connectivity message and the collections
stay empty, but the user remains set, so the dashboard (with empty lists) is
rendered instead of the login screen. -/
theorem fetch_failure_keeps_user (s : AppState) (resp : LoginResponse) (u : User)
    (h1 : s.useReal = true) (h2 : resp.user = some u)
    (h3 : s.data = { upcoming := [], past := [] }) :
    (handleLogin s (some resp) none).1.error = some connectionFailedMsg ∧
    (handleLogin s (some resp) none).1.user = some u ∧
    (handleLogin s (some resp) none).1.data.upcoming = [] ∧
    (handleLogin s (some resp) none).1.data.past = [] ∧
    render (handleLogin s (some resp) none).1 = View.dashboard [] [] := by
  have hl : login s.useReal (some resp) = LoginResult.user u := by
    simp [login, h1, h2]
  have hf : fetchMeetings s.useReal none = none := by
    simp [fetchMeetings, h1]
  simp [handleLogin, hl, hf, render, h3]

/-- Witness for the amended C2 at the initial state and a concrete user. -/
theorem fetch_failure_keeps_user_witness :
    (handleLogin initialState (some { user := some testUser, authUrl := none })
      none).1.error = some connectionFailedMsg ∧
    (handleLogin initialState (some { user := some testUser, authUrl := none })
      none).1.user = some testUser ∧
    (handleLogin initialState (some { user := some testUser, authUrl := none })
      none).1.data.upcoming = [] ∧
    (handleLogin initialState (some { user := some testUser, authUrl := none })
      none).1.data.past = [] ∧
    render (handleLogin initialState (some { user := some testUser, authUrl := none })
      none).1 = View.dashboard [] [] :=
  fetch_failure_keeps_user initialState { user := some testUser, authUrl := none }
    testUser rfl rfl rfl

/-- C6 counterexample: after a real-mode login resolves to a redirect
signal, a further local state change does occur — the finally clause of
`handleLogin` emits `setLoading false` after the login resolution — and the
final local state has the loading flag cleared, so the derived controller
state is LoggedOut rather than remaining Authenticating. -/
theorem redirect_not_stuck_counterexample :
    (handleLogin initialState
      (some { user := none, authUrl := some "https://accounts.google.com/auth" })
      none).2 =
      [Event.setLoading true, Event.setError none, Event.loginCall,
       Event.navigate "https://accounts.google.com/auth",
       Event.loginResolved (LoginResult.redirect "https://accounts.google.com/auth"),
       Event.setLoading false] ∧
    (handleLogin initialState
      (some { user := none, authUrl := some "https://accounts.google.com/auth" })
      none).1.loading = false ∧
    controllerState (handleLogin initialState
      (some { user := none, authUrl := some "https://accounts.google.com/auth" })
      none).1 ≠ CtrlState.authenticating := by
  refine ⟨rfl, rfl, ?_⟩
  intro h
  simp [handleLogin, login, initialState, USE_REAL_BACKEND, controllerState] at h

/-- C6 amended: after a real-mode login resolves to a redirect signal, the
controller does not remain in Authenticating: the finally clause clears the
loading flag (one further local state change after the redirect resolution),
leaving the user, data and error untouched, so a controller that started
logged out ends in the LoggedOut state. -/
theorem redirect_clears_loading (s : AppState) (resp : LoginResponse)
    (fE : Option MeetingData) (url : String)
    (h1 : s.useReal = true) (h2 : resp.user = none) (h3 : resp.authUrl = some url) :
    (handleLogin s (some resp) fE).1.loading = false ∧
    (handleLogin s (some resp) fE).1.user = s.user ∧
    (handleLogin s (some resp) fE).1.data = s.data ∧
    (handleLogin s (some resp) fE).1.error = none ∧
    (∃ pre, (handleLogin s (some resp) fE).2 = pre ++ [Event.setLoading false] ∧
      Event.loginResolved (LoginResult.redirect url) ∈ pre) ∧
    (s.user = none → controllerState (handleLogin s (some resp) fE).1 = CtrlState.loggedOut) := by
  have hl : login s.useReal (some resp) = LoginResult.redirect url := by
    simp [login, h1, h2, h3]
  refine ⟨?_, ?_, ?_, ?_, ?_, ?_⟩
  · simp [handleLogin, hl]
  · simp [handleLogin, hl]
  · simp [handleLogin, hl]
  · simp [handleLogin, hl]
  · refine ⟨[Event.setLoading true, Event.setError none, Event.loginCall,
      Event.navigate url, Event.loginResolved (LoginResult.redirect url)], ?_, ?_⟩
    · simp [handleLogin, hl]
    · simp
  · intro h4
    simp [handleLogin, hl, controllerState, h4]

/-- Witness for the amended C6 at a concrete redirect response. -/
theorem redirect_clears_loading_witness :
    (handleLogin initialState
      (some { user := none, authUrl := some "https://accounts.google.com/auth" })
      none).1.loading = false ∧
    (handleLogin initialState
      (some { user := none, authUrl := some "https://accounts.google.com/auth" })
      none).1.user = initialState.user ∧
    (handleLogin initialState
      (some { user := none, authUrl := some "https://accounts.google.com/auth" })
      none).1.data = initialState.data ∧
    (handleLogin initialState
      (some { user := none, authUrl := some "https://accounts.google.com/auth" })
      none).1.error = none ∧
    (∃ pre, (handleLogin initialState
      (some { user := none, authUrl := some "https://accounts.google.com/auth" })
      none).2 = pre ++ [Event.setLoading false] ∧
      Event.loginResolved (LoginResult.redirect "https://accounts.google.com/auth") ∈ pre) ∧
    (initialState.user = none → controllerState (handleLogin initialState
      (some { user := none, authUrl := some "https://accounts.google.com/auth" })
      none).1 = CtrlState.loggedOut) :=
  redirect_clears_loading initialState
    { user := none, authUrl := some "https://accounts.google.com/auth" }
    none "https://accounts.google.com/auth" rfl rfl rfl

/-- C7: real-mode login fails exactly when the backend response carries
neither a user nor a redirect target or the transport fails; and every such
failure is caught by `handleLogin`, collapsed into the single generic
connectivity message, with exactly one login invocation (no automatic retry)
and no fetch call. -/
theorem auth_protocol_error :
    (∀ env, login true env = LoginResult.failure ↔
      (env = none ∨ ∃ r, env = some r ∧ r.user = none ∧ r.authUrl = none)) ∧
    (∀ (s : AppState) (lE : Option LoginResponse) (fE : Option MeetingData),
      s.useReal = true → login s.useReal lE = LoginResult.failure →
      (handleLogin s lE fE).1.error = some connectionFailedMsg ∧
      (handleLogin s lE fE).1.user = s.user ∧
      ((handleLogin s lE fE).2).count Event.loginCall = 1 ∧
      Event.fetchCall ∉ (handleLogin s lE fE).2) := by
  constructor
  · intro env
    rcases env with _ | r
    · simp [login]
    · rcases hu : r.user with _ | u
      · rcases ha : r.authUrl with _ | url
        · simp [login, hu, ha]
        · simp [login, hu, ha]
      · simp [login, hu]
  · intro s lE fE h1 hl
    refine ⟨?_, ?_, handleLogin_count_loginCall s lE fE, ?_⟩
    · simp [handleLogin, hl]
    · simp [handleLogin, hl]
    · simp [handleLogin, hl]

/-- Witness for C7: the transport-failure environment makes real login fail,
and from the initial state the failure collapses to the generic message. -/
theorem auth_protocol_error_witness :
    login true none = LoginResult.failure ∧
    (handleLogin initialState none none).1.error = some connectionFailedMsg :=
  ⟨(auth_protocol_error.1 none).mpr (Or.inl rfl),
   (auth_protocol_error.2 initialState none none rfl rfl).1⟩

/-- C3: the fetch service is invoked only when the login service has
resolved to a concrete user, and when it has, it is invoked exactly once,
after the login resolution and before the final clearing of the loading flag
(the point at which the controller becomes LoggedIn). -/
theorem fetch_only_after_login (s : AppState) (lE : Option LoginResponse)
    (fE : Option MeetingData) :
    (Event.fetchCall ∈ (handleLogin s lE fE).2 →
      ∃ u, login s.useReal lE = LoginResult.user u) ∧
    (∀ u, login s.useReal lE = LoginResult.user u →
      ∃ pre post, (handleLogin s lE fE).2 = pre ++ Event.fetchCall :: post ∧
        Event.loginResolved (LoginResult.user u) ∈ pre ∧
        Event.fetchCall ∉ pre ∧ Event.fetchCall ∉ post ∧
        Event.setLoading false ∈ post) := by
  rcases hl : login s.useReal lE with u | url | _
  · constructor
    · intro _
      exact ⟨u, rfl⟩
    · intro u2 hu2
      cases hu2
      rcases hf : fetchMeetings s.useReal fE with _ | d
      · refine ⟨[Event.setLoading true, Event.setError none, Event.loginCall,
          Event.loginResolved (LoginResult.user u), Event.setUser (some u)],
          [Event.setError (some connectionFailedMsg), Event.setLoading false],
          ?_, ?_, ?_, ?_, ?_⟩
        · simp [handleLogin, hl, hf]
        · simp
        · simp
        · simp
        · simp
      · refine ⟨[Event.setLoading true, Event.setError none, Event.loginCall,
          Event.loginResolved (LoginResult.user u), Event.setUser (some u)],
          [Event.setData d, Event.setLoading false],
          ?_, ?_, ?_, ?_, ?_⟩
        · simp [handleLogin, hl, hf]
        · simp
        · simp
        · simp
        · simp
  · constructor
    · intro hmem
      simp [handleLogin, hl] at hmem
    · intro u2 hu2
      cases hu2
  · constructor
    · intro hmem
      simp [handleLogin, hl] at hmem
    · intro u2 hu2
      cases hu2

/-- Witness for C3 at the initial state with a concrete user response and a
successful empty fetch. -/
theorem fetch_only_after_login_witness :
    ∃ pre post,
      (handleLogin initialState (some { user := some testUser, authUrl := none })
        (some { upcoming := [], past := [] })).2 = pre ++ Event.fetchCall :: post ∧
      Event.loginResolved (LoginResult.user testUser) ∈ pre ∧
      Event.fetchCall ∉ pre ∧ Event.fetchCall ∉ post ∧
      Event.setLoading false ∈ post :=
  (fetch_only_after_login initialState (some { user := some testUser, authUrl := none })
    (some { upcoming := [], past := [] })).2 testUser rfl

/-- C4: when the page loads with the marker ?status=success while the mode
flag selects the real backend, login is auto-invoked exactly once, the
marker is removed from the URL whatever the login outcome is, and re-running
the startup effect on the resulting URL invokes nothing (idempotent on
reload). -/
theorem startup_marker_consumed (url : URLState) (s : AppState)
    (lE : Option LoginResponse) (fE : Option MeetingData)
    (h1 : markerPresent url = true) (h2 : s.useReal = true) :
    ((startupEffect url s lE fE).2.2).count Event.loginCall = 1 ∧
    markerPresent (startupEffect url s lE fE).2.1 = false ∧
    (∀ (s2 : AppState) (lE2 : Option LoginResponse) (fE2 : Option MeetingData),
      startupEffect (startupEffect url s lE fE).2.1 s2 lE2 fE2 =
        (s2, (startupEffect url s lE fE).2.1, [])) := by
  have h1e : url.statusParam = some "success" := by
    simpa [markerPresent] using h1
  refine ⟨?_, ?_, ?_⟩
  · simpa [startupEffect, markerPresent, h1e, h2] using handleLogin_count_loginCall s lE fE
  · simp [startupEffect, markerPresent, h1e, h2]
  · intro s2 lE2 fE2
    simp [startupEffect, markerPresent, h1e, h2]

/-- Witness for C4: the marker page load in real mode with a failing login
still consumes the marker once. -/
theorem startup_marker_consumed_witness :
    ((startupEffect { statusParam := some "success" } initialState none none).2.2).count
      Event.loginCall = 1 ∧
    markerPresent (startupEffect { statusParam := some "success" } initialState
      none none).2.1 = false ∧
    (∀ (s2 : AppState) (lE2 : Option LoginResponse) (fE2 : Option MeetingData),
      startupEffect (startupEffect { statusParam := some "success" } initialState
        none none).2.1 s2 lE2 fE2 =
        (s2, (startupEffect { statusParam := some "success" } initialState
          none none).2.1, [])) :=
  startup_marker_consumed { statusParam := some "success" } initialState none none rfl rfl

end CalendarApp
